import Mathlib

/-!
Shallow embedding of the MediMind application core
(src/app/main.py and src/app/utils/performance.py).

External collaborators (the PDF library `fitz`, `pandas`, the HTTP
client, the LLM endpoint, the translation endpoint, the Streamlit
cache) are black boxes: their outputs on the given input are passed in
as explicit parameters or option-valued fields, and an exception they
raise is the `none` / `.error` case of that parameter.  Python strings
and exceptions crossing a `try` boundary are modelled with `Except`;
Python byte strings are `List Nat`.
-/

namespace MediMind

/-! ### Byte-level UTF-8 decoding, as Python `bytes.decode("utf-8")` (strict).

Python strict decoding rejects lone continuation bytes, overlong
encodings, surrogate code points and code points above U+10FFFF; on any
such byte sequence it raises `UnicodeDecodeError`, modelled here as
`none`. -/

def contByte (b : Nat) : Bool := 0x80 ≤ b && b < 0xC0

def utf8Decode : List Nat → Option (List Nat)
  | [] => some []
  | b :: bs =>
    if b < 0x80 then
      (utf8Decode bs).map (fun r => b :: r)
    else if b < 0xC2 then
      none
    else if b < 0xE0 then
      match bs with
      | b1 :: bs1 =>
        if contByte b1 then
          (utf8Decode bs1).map (fun r => ((b - 0xC0) * 64 + (b1 - 0x80)) :: r)
        else none
      | [] => none
    else if b < 0xF0 then
      match bs with
      | b1 :: b2 :: bs2 =>
        let cp := (b - 0xE0) * 4096 + (b1 - 0x80) * 64 + (b2 - 0x80)
        if contByte b1 && contByte b2 && decide (0x800 ≤ cp) &&
            !(decide (0xD800 ≤ cp) && decide (cp ≤ 0xDFFF)) then
          (utf8Decode bs2).map (fun r => cp :: r)
        else none
      | _ => none
    else if b < 0xF5 then
      match bs with
      | b1 :: b2 :: b3 :: bs3 =>
        let cp := (b - 0xF0) * 262144 + (b1 - 0x80) * 4096 +
            (b2 - 0x80) * 64 + (b3 - 0x80)
        if contByte b1 && contByte b2 && contByte b3 &&
            decide (0x10000 ≤ cp) && decide (cp ≤ 0x10FFFF) then
          (utf8Decode bs3).map (fun r => cp :: r)
        else none
      | _ => none
    else none

/-- Decoded code points rendered as a string (all code points produced by
`utf8Decode` are valid unicode scalar values). -/
def stringOfCodepoints (cps : List Nat) : String :=
  String.mk (cps.map Char.ofNat)

/-! ### Text extraction
(`CacheOptimizer.optimized_text_extraction`, performance.py lines
127-155, and `extract_text_optimized`, main.py lines 159-175). -/

/-- An uploaded file.  `bytes` are the raw bytes (read by the txt/data
branch).  `pdfPages` is what the black-box PDF library extracts from
those bytes: `some pages` is the per-page text in document order,
`none` means the library raises on these bytes.  `csvRender` likewise
is the black-box CSV reader's aligned rendering (`to_string` with the
index suppressed), `none` when it raises. -/
structure UploadedFile where
  bytes : List Nat
  pdfPages : Option (List String)
  csvRender : Option String

/-- The exceptions `optimized_text_extraction` can raise past its own
body (caught by `extract_text_optimized`). -/
inductive ExtractExn where
  | pdfParseError
  | unicodeDecodeError
  | csvParseError
deriving DecidableEq, Repr

def extractExnMsg : ExtractExn → String
  | .pdfParseError => "failed to open stream"
  | .unicodeDecodeError => "invalid utf-8 byte sequence"
  | .csvParseError => "error tokenizing data"

/-- `CacheOptimizer.optimized_text_extraction(file_bytes, file_type)`:
pdf pages joined by a single newline; txt/data decoded strictly as
UTF-8; csv rendered by the CSV reader; any other type falls through to
`return ""`.  An exception from a library call is the `.error` case. -/
def optimized_text_extraction (f : UploadedFile) (fileType : String) :
    Except ExtractExn String :=
  if fileType = "pdf" then
    match f.pdfPages with
    | some pages => .ok (String.intercalate "\n" pages)
    | none => .error .pdfParseError
  else if fileType = "txt" ∨ fileType = "data" then
    match utf8Decode f.bytes with
    | some cps => .ok (stringOfCodepoints cps)
    | none => .error .unicodeDecodeError
  else if fileType = "csv" then
    match f.csvRender with
    | some s => .ok s
    | none => .error .csvParseError
  else
    .ok ""

/-- Python `str.lower` on the extension, character by character. -/
def lowercase (s : String) : String :=
  String.mk (s.data.map Char.toLower)

/-- Python `str.split(sep)` for a one-character separator: split at
every occurrence, keeping empty chunks (so the result is never
empty). -/
def splitChars (sep : Char) : List Char → List (List Char)
  | [] => [[]]
  | c :: cs =>
    let rest := splitChars sep cs
    if c = sep then [] :: rest
    else
      match rest with
      | r :: rs => (c :: r) :: rs
      | [] => [[c]]

/-- Python `str.strip()`: drop whitespace from both ends. -/
def pyStrip (s : String) : String :=
  String.mk (((s.data.dropWhile Char.isWhitespace).reverse.dropWhile
    Char.isWhitespace).reverse)

/-- `file_name.split('.')[-1].lower()` from main.py line 164. -/
def fileExtension (fileName : String) : String :=
  lowercase (String.mk ((splitChars '.' fileName.data).getLastD []))

/-- `extract_text_optimized(file_bytes, file_name)` (main.py lines
159-175): derive the extension, delegate to
`optimized_text_extraction`, map a falsy (empty) result to the
could-not-extract message, and catch any exception into an error
string. -/
def extract_text_optimized (f : UploadedFile) (fileName : String) : String :=
  match optimized_text_extraction f (fileExtension fileName) with
  | .ok r => if r = "" then "Error: Could not extract text from file" else r
  | .error e => "Error extracting text: " ++ extractExnMsg e

/-- The spec's words for C2, for comparison: concatenate page texts
with no separator between pages. -/
def concatPagesNoSeparator (pages : List String) : String :=
  String.join pages

/-! ### PubMed literature search
(`search_pubmed_optimized`, `fetch_articles_optimized`,
`parse_articles_optimized` and the Search Articles handler,
main.py lines 313-423). -/

/-- One `PubmedArticle` element of the fetched XML, seen through the
three `findtext` calls the parser makes.  `none` means the sub-element
is absent (so `findtext` returns its default, or `None` for PMID);
`some ""` means the element is present with empty text. -/
structure PubmedArticleXml where
  articleTitle : Option String
  abstractText : Option String
  pmid : Option String
deriving DecidableEq, Repr

/-- The fetch payload handed to the parser: either text that is not
well-formed XML (so `ET.fromstring` raises `ParseError`) or the list
of `PubmedArticle` elements found by `root.findall`. -/
inductive FetchPayload where
  | malformedXml
  | wellFormed (articles : List PubmedArticleXml)

structure Article where
  title : String
  abstract : String
  url : String
  pmid : Option String
deriving DecidableEq, Repr

def pubmedUrlPrefix : String := "https://pubmed.ncbi.nlm.nih.gov/"

/-- `abstract[:500] + "..."` when `len(abstract) > 500` (main.py lines
382-383). -/
def truncateAbstract (s : String) : String :=
  if s.length > 500 then s.take 500 ++ "..." else s

/-- The per-element body of the parse loop (main.py lines 376-391):
defaults for missing title/abstract, truncation, and the URL built by
`f"https://pubmed.ncbi.nlm.nih.gov/{pmid}/" if pmid else "#"` (a
`None` or empty `pmid` is falsy). -/
def parseArticle (a : PubmedArticleXml) : Article :=
  let title := a.articleTitle.getD "No title"
  let abstract := truncateAbstract (a.abstractText.getD "No abstract available")
  let url :=
    match a.pmid with
    | some p => if p = "" then "#" else pubmedUrlPrefix ++ p ++ "/"
    | none => "#"
  { title := title, abstract := abstract, url := url, pmid := a.pmid }

/-- `parse_articles_optimized(xml_data)` (main.py lines 370-394): a
`ParseError` from `ET.fromstring` is caught, an error is displayed and
the empty `articles` list is returned; otherwise every found element
is appended. -/
def parse_articles_optimized : FetchPayload → List Article
  | .malformedXml => []
  | .wellFormed arts => arts.map parseArticle

/-- A well-formed record in a fetch payload: all three sub-elements
present, with a non-empty identifier. -/
def wellFormedArticle (a : PubmedArticleXml) : Prop :=
  a.articleTitle.isSome ∧ a.abstractText.isSome ∧
    a.pmid.isSome ∧ a.pmid ≠ some ""

instance (a : PubmedArticleXml) : Decidable (wellFormedArticle a) := by
  unfold wellFormedArticle
  infer_instance

/-- The query parameters of the efetch GET request. -/
structure FetchRequest where
  db : String
  id : String
  retmode : String
deriving DecidableEq, Repr

/-- What one call of `fetch_articles_optimized` did: the request it
issued (if any) and the string it returned. -/
structure FetchTrace where
  request : Option FetchRequest
  result : String
deriving DecidableEq, Repr

/-- `fetch_articles_optimized(pmid_list)` (main.py lines 349-368): empty
list returns `""` with no request; otherwise the ids are
`",".join(pmid_list[:10])` and the black-box `requests.get` (passed in
as `httpGet`; `.error` is a raised exception, including
`raise_for_status` and timeouts) either yields the response text or is
caught into `""`. -/
def fetch_articles_optimized (pmidList : List String)
    (httpGet : FetchRequest → Except String String) : FetchTrace :=
  if pmidList = [] then ⟨none, ""⟩
  else
    let req : FetchRequest :=
      ⟨"pubmed", String.intercalate "," (pmidList.take 10), "xml"⟩
    match httpGet req with
    | .ok body => ⟨some req, body⟩
    | .error _ => ⟨some req, ""⟩

/-- What the Search Articles handler displays at the end. -/
inductive SearchOutcome where
  | warning (msg : String)
  | results (articles : List Article)
deriving DecidableEq, Repr

/-- What one run of the Search Articles handler did: its displayed
outcome and whether the fetch and parse steps ran. -/
structure SearchHandlerTrace where
  outcome : SearchOutcome
  fetchCalled : Bool
  parseCalled : Bool
deriving DecidableEq, Repr

/-- The Search Articles button handler (main.py lines 396-423).
`searchResult` is the id list `search_pubmed_optimized` returned for
the query (that function returns `[]` both for an empty result and on
a caught transport error); `fetchFn` and `parseFn` are the fetch and
parse steps. -/
def searchArticlesHandler (query : String) (searchResult : List String)
    (fetchFn : List String → String) (parseFn : String → List Article) :
    SearchHandlerTrace :=
  if pyStrip query = "" then
    ⟨.warning "Please enter a valid search term.", false, false⟩
  else if searchResult = [] then
    ⟨.warning "No results found for the query.", false, false⟩
  else
    let xmlData := fetchFn searchResult
    if xmlData = "" then
      ⟨.warning "Failed to fetch article details.", true, false⟩
    else
      let articles := parseFn xmlData
      if articles = [] then
        ⟨.warning "No articles found for the query.", true, true⟩
      else
        ⟨.results articles, true, true⟩

/-! ### Summary generation and translation
(`generate_summary`, main.py lines 268-280, and the Get Report Summary
button handler, main.py lines 282-311). -/

/-- The language choices offered by the selectbox (main.py line 261). -/
def languages : List String :=
  ["English", "Hindi", "Telugu", "Spanish", "French", "German", "Chinese"]

/-- What `generate_summary` returned, and whether the black-box
translator was ever invoked during the call.  `.error` is an exception
escaping the function (from the LLM call or the translator). -/
structure SummaryTrace where
  result : Except String (String × Option String)
  translatorInvoked : Bool
deriving Repr

/-- `generate_summary(report_text, language)` (main.py lines 268-280).
`llmResult` is the content of `summary_chain.invoke(...)`, `.error`
when that call raises; `translate target text` is the black-box
`GoogleTranslator(source="auto", target=language.lower()).translate`,
`.error` when it raises.  The translator runs only when
`language != "English" and include_translation`. -/
def generate_summary (llmResult : Except String String)
    (translate : String → String → Except String String)
    (language : String) (includeTranslation : Bool) : SummaryTrace :=
  match llmResult with
  | .error e => ⟨.error e, false⟩
  | .ok summary =>
    if language ≠ "English" ∧ includeTranslation then
      match translate (lowercase language) summary with
      | .ok t => ⟨.ok (summary, some t), true⟩
      | .error e => ⟨.error e, true⟩
    else
      ⟨.ok (summary, none), false⟩

/-- The session-state fields the summary handler touches. -/
structure SessionState where
  extractedText : Option String
  summary : Option String
deriving DecidableEq, Repr

/-- What the Get Report Summary handler displays. -/
inductive SummaryDisplay where
  | translated (language : String) (text : String)
  | plain (text : String)
  | errorMsg (msg : String)
  | warnUpload
deriving DecidableEq, Repr

/-- The Get Report Summary button handler (main.py lines 282-311): if
extracted text is present and non-blank it calls `generate_summary`
inside a `try`; on success it stores the summary in session state and
then displays the translated text when present, the plain summary
otherwise; an escaping exception is caught and only an error is shown
(session state is left as it was). -/
def getReportSummaryHandler (st : SessionState)
    (llmResult : Except String String)
    (translate : String → String → Except String String)
    (language : String) (includeTranslation : Bool) :
    SessionState × SummaryDisplay :=
  match st.extractedText with
  | none => (st, .warnUpload)
  | some txt =>
    if pyStrip txt = "" then (st, .warnUpload)
    else
      match generate_summary llmResult translate language includeTranslation with
      | ⟨.ok (summary, some t), _⟩ =>
        ({ st with summary := some summary }, .translated language t)
      | ⟨.ok (summary, none), _⟩ =>
        ({ st with summary := some summary }, .plain summary)
      | ⟨.error e, _⟩ =>
        (st, .errorMsg ("Summary generation failed: " ++ e))

/-! ### Cache configurations
(the `st.cache_data` decorator arguments in the source). -/

/-- A cache decorator's configuration: time-to-live in seconds and
entry-count cap, each absent when the decorator does not set it. -/
structure CacheConfig where
  ttl : Option Nat
  maxEntries : Option Nat
deriving DecidableEq, Repr

/-- `@st.cache_data(show_spinner=False, max_entries=5, ttl=1800)` on
`extract_text_optimized` (main.py line 160). -/
def extractTextCacheConfig : CacheConfig := ⟨some 1800, some 5⟩

/-- `@st.cache_data(show_spinner=False, max_entries=5, ttl=1800)` on
`CacheOptimizer.optimized_text_extraction` (performance.py). -/
def optimizedTextExtractionCacheConfig : CacheConfig := ⟨some 1800, some 5⟩

/-- `@st.cache_data(show_spinner=False, ttl=3600)` on
`search_pubmed_optimized` (main.py line 328): no `max_entries`. -/
def searchPubmedCacheConfig : CacheConfig := ⟨some 3600, none⟩

/-- `@st.cache_data(show_spinner=False, ttl=3600)` on
`fetch_articles_optimized` (main.py line 349): no `max_entries`. -/
def fetchArticlesCacheConfig : CacheConfig := ⟨some 3600, none⟩

/-- A stored cache entry. -/
structure CacheEntry (α : Type) where
  insertedAt : Nat
  value : α

/-- Modelled from the spec: the lookup step of the external caching
decorator (the cache itself lives in the UI framework, outside this
repository).  Per the spec's cache contract, a stored entry is
returned only while unexpired under the configured ttl; with no ttl
configured it never expires. -/
def cacheLookup {α : Type} (cfg : CacheConfig) (now : Nat)
    (e : Option (CacheEntry α)) : Option α :=
  match e with
  | none => none
  | some entry =>
    match cfg.ttl with
    | none => some entry.value
    | some t => if now < entry.insertedAt + t then some entry.value else none

/-! ## Claims -/

/-- C1, counterexample: with extracted text present, a successful LLM
summary "S" and a failing translator, the Get Report Summary handler
leaves session state unchanged (the summary slot stays empty — "S" is
not stored) and displays only the error message, contradicting the
claim that the untranslated summary remains stored and displayed. -/
theorem C1_counterexample :
    getReportSummaryHandler ⟨some "report text", none⟩ (.ok "S")
        (fun _ _ => .error "boom") "French" true
      = (⟨some "report text", none⟩,
          .errorMsg "Summary generation failed: boom")
    ∧ (getReportSummaryHandler ⟨some "report text", none⟩ (.ok "S")
        (fun _ _ => .error "boom") "French" true).1.summary ≠ some "S" := by
  refine ⟨rfl, ?_⟩
  intro h
  simp [getReportSummaryHandler, generate_summary, pyStrip] at h

/-- C1, amended: if the summary succeeds but the translation call
fails, the translator was invoked and its exception escapes
`generate_summary`; the handler catches it, session state is left
exactly as it was (the new summary is discarded, any previously stored
summary is retained unchanged) and only an error message is
displayed. -/
theorem C1_amended (st : SessionState) (txt s e : String)
    (translate : String → String → Except String String)
    (language : String) (includeTranslation : Bool)
    (hx : st.extractedText = some txt) (ht : pyStrip txt ≠ "")
    (hl : language ≠ "English") (hi : includeTranslation = true)
    (htr : translate (lowercase language) s = .error e) :
    generate_summary (.ok s) translate language includeTranslation
      = ⟨.error e, true⟩
    ∧ getReportSummaryHandler st (.ok s) translate language includeTranslation
      = (st, .errorMsg ("Summary generation failed: " ++ e)) := by
  subst hi
  have hg : generate_summary (.ok s) translate language true = ⟨.error e, true⟩ := by
    simp [generate_summary, hl, htr]
  refine ⟨hg, ?_⟩
  simp [getReportSummaryHandler, hx, ht, hg]

theorem C1_amended_witness :
    generate_summary (.ok "S") (fun _ _ => .error "boom") "French" true
      = ⟨.error "boom", true⟩
    ∧ getReportSummaryHandler ⟨some "r", some "old"⟩ (.ok "S")
        (fun _ _ => .error "boom") "French" true
      = (⟨some "r", some "old"⟩,
          .errorMsg "Summary generation failed: boom") :=
  C1_amended ⟨some "r", some "old"⟩ "r" "S" "boom"
    (fun _ _ => .error "boom") "French" true rfl (by decide) (by decide)
    rfl rfl

/-- C2, counterexample: on a two-page PDF the extractor returns the
page texts joined by a newline, which differs from the claimed
no-separator concatenation. -/
theorem C2_counterexample :
    optimized_text_extraction ⟨[], some ["First page.", "Second page."], none⟩
        "pdf"
      = .ok "First page.\nSecond page."
    ∧ "First page.\nSecond page."
      ≠ concatPagesNoSeparator ["First page.", "Second page."] :=
  ⟨rfl, by decide⟩

/-- C2, amended: for every PDF input, extraction decodes each page in
document order and returns the page texts joined with a single newline
between consecutive pages (`"\n".join`). -/
theorem C2_amended (f : UploadedFile) (pages : List String)
    (h : f.pdfPages = some pages) :
    optimized_text_extraction f "pdf" = .ok (String.intercalate "\n" pages) := by
  simp [optimized_text_extraction, h]

theorem C2_amended_witness :
    optimized_text_extraction ⟨[], some ["a", "b"], none⟩ "pdf"
      = .ok (String.intercalate "\n" ["a", "b"])
    ∧ String.intercalate "\n" ["a", "b"] = "a\nb" :=
  ⟨C2_amended ⟨[], some ["a", "b"], none⟩ ["a", "b"] rfl, by decide⟩

/-- C3: a payload of well-formed records with one malformed record
among them parses to one output record per input record — nothing is
discarded and no fault is thrown; each well-formed record keeps its
own field values (no placeholder), and the malformed record gets the
placeholder strings exactly on its missing fields. -/
theorem C3_malformed_record_kept (pre post : List PubmedArticleXml)
    (bad : PubmedArticleXml)
    (hwf : ∀ a ∈ pre ++ post, wellFormedArticle a) :
    parse_articles_optimized (.wellFormed (pre ++ bad :: post))
      = pre.map parseArticle ++ parseArticle bad :: post.map parseArticle
    ∧ (parse_articles_optimized (.wellFormed (pre ++ bad :: post))).length
      = pre.length + post.length + 1
    ∧ (∀ a ∈ pre ++ post, ∀ t ab p,
        a.articleTitle = some t → a.abstractText = some ab →
        a.pmid = some p → p ≠ "" →
        parseArticle a
          = ⟨t, truncateAbstract ab, pubmedUrlPrefix ++ p ++ "/", some p⟩)
    ∧ (bad.articleTitle = none → (parseArticle bad).title = "No title")
    ∧ (bad.abstractText = none →
        (parseArticle bad).abstract = "No abstract available") := by
  refine ⟨?_, ?_, ?_, ?_, ?_⟩
  · simp [parse_articles_optimized]
  · simp [parse_articles_optimized]
    omega
  · intro a _ t ab p ht hab hp hpne
    simp [parseArticle, ht, hab, hp, hpne]
  · intro h
    simp [parseArticle, h]
  · intro h
    simp [parseArticle, h]
    decide

theorem C3_witness :
    (∀ a ∈ ([⟨some "T1", some "A1", some "1"⟩] ++
        [⟨some "T2", some "A2", some "2"⟩] : List PubmedArticleXml),
      wellFormedArticle a)
    ∧ (parse_articles_optimized (.wellFormed
        ([⟨some "T1", some "A1", some "1"⟩] ++
          (⟨none, none, none⟩ : PubmedArticleXml) ::
          [⟨some "T2", some "A2", some "2"⟩]))).length
      = 1 + 1 + 1 :=
  ⟨by decide,
    (C3_malformed_record_kept [⟨some "T1", some "A1", some "1"⟩]
      [⟨some "T2", some "A2", some "2"⟩] ⟨none, none, none⟩
      (by decide)).2.1⟩

/-- C4, counterexample: the two remote-search caches configure no
entry-count cap at all (`st.cache_data` is given only `ttl=3600`), so
it is false that every cache has both a time-to-live and an
entry-count cap. -/
theorem C4_counterexample :
    searchPubmedCacheConfig.maxEntries = none
    ∧ fetchArticlesCacheConfig.maxEntries = none :=
  ⟨rfl, rfl⟩

/-- C4, amended: the text-extraction caches have both a time-to-live
(1800 s) and an entry cap (5 entries); the remote-search caches
(identifier lookup and record fetch) have a time-to-live (3600 s) but
no entry-count cap; and under the cache contract a stored entry is
never returned at or after its expiry time. -/
theorem C4_amended :
    extractTextCacheConfig = ⟨some 1800, some 5⟩
    ∧ optimizedTextExtractionCacheConfig = ⟨some 1800, some 5⟩
    ∧ searchPubmedCacheConfig = ⟨some 3600, none⟩
    ∧ fetchArticlesCacheConfig = ⟨some 3600, none⟩
    ∧ (∀ (cfg : CacheConfig) (now t : Nat) (entry : CacheEntry (List String)),
        cfg.ttl = some t → entry.insertedAt + t ≤ now →
        cacheLookup cfg now (some entry) = none) := by
  refine ⟨rfl, rfl, rfl, rfl, ?_⟩
  intro cfg now t entry ht hle
  simp [cacheLookup, ht]
  omega

theorem C4_amended_witness :
    searchPubmedCacheConfig.ttl = some 3600
    ∧ (⟨0, ["31452104"]⟩ : CacheEntry (List String)).insertedAt + 3600 ≤ 5000
    ∧ cacheLookup searchPubmedCacheConfig 5000
        (some ⟨0, ["31452104"]⟩) = none :=
  ⟨rfl, by decide,
    C4_amended.2.2.2.2 searchPubmedCacheConfig 5000 3600 ⟨0, ["31452104"]⟩
      rfl (by decide)⟩

/-- C5: a txt/data-declared input whose bytes are not valid UTF-8
makes the inner extraction raise a decode error, which
`extract_text_optimized` catches and returns as a decode-failure error
string — never corrupted replacement text, never an escaping
exception. -/
theorem C5_invalid_utf8_decode_error (f : UploadedFile) (fileName : String)
    (hext : fileExtension fileName = "txt" ∨ fileExtension fileName = "data")
    (hbad : utf8Decode f.bytes = none) :
    optimized_text_extraction f (fileExtension fileName)
      = .error .unicodeDecodeError
    ∧ extract_text_optimized f fileName
      = "Error extracting text: " ++ extractExnMsg .unicodeDecodeError := by
  have hinner : optimized_text_extraction f (fileExtension fileName)
      = .error .unicodeDecodeError := by
    rcases hext with h | h <;> rw [h] <;> simp [optimized_text_extraction, hbad]
  refine ⟨hinner, ?_⟩
  simp [extract_text_optimized, hinner]

theorem C5_witness :
    (fileExtension "notes.txt" = "txt" ∨ fileExtension "notes.txt" = "data")
    ∧ utf8Decode [255] = none
    ∧ extract_text_optimized ⟨[255], none, none⟩ "notes.txt"
      = "Error extracting text: " ++ extractExnMsg .unicodeDecodeError :=
  ⟨Or.inl (by decide), by decide,
    (C5_invalid_utf8_decode_error ⟨[255], none, none⟩ "notes.txt"
      (Or.inl (by decide)) (by decide)).2⟩

/-- C6: for any filename whose (lowercased) suffix is none of pdf,
txt, data, csv, the inner extraction raises nothing (it returns the
falsy empty string), and `extract_text_optimized` returns the
could-not-extract error string that the UI displays. -/
theorem C6_unsupported_extension (f : UploadedFile) (fileName : String)
    (h : fileExtension fileName ∉ ["pdf", "txt", "data", "csv"]) :
    optimized_text_extraction f (fileExtension fileName) = .ok ""
    ∧ extract_text_optimized f fileName
      = "Error: Could not extract text from file" := by
  simp only [List.mem_cons, List.mem_singleton, not_or] at h
  obtain ⟨h1, h2, h3, h4⟩ := h
  have hinner : optimized_text_extraction f (fileExtension fileName) = .ok "" := by
    simp [optimized_text_extraction, h1, h2, h3, h4]
  refine ⟨hinner, ?_⟩
  simp [extract_text_optimized, hinner]

theorem C6_witness :
    fileExtension "scan.docx" ∉ ["pdf", "txt", "data", "csv"]
    ∧ extract_text_optimized ⟨[], none, none⟩ "scan.docx"
      = "Error: Could not extract text from file" :=
  ⟨by decide,
    (C6_unsupported_extension ⟨[], none, none⟩ "scan.docx" (by decide)).2⟩

/-- C7: when the identifier lookup yields an empty list for a
non-blank topic, the handler short-circuits: the fetch and parse steps
are not performed, the displayed outcome is a warning (not an error,
and no articles); and `fetch_articles_optimized` itself issues no
request on an empty identifier list. -/
theorem C7_empty_idlist_short_circuits (query : String)
    (fetchFn : List String → String) (parseFn : String → List Article)
    (hq : pyStrip query ≠ "") :
    searchArticlesHandler query [] fetchFn parseFn
      = ⟨.warning "No results found for the query.", false, false⟩
    ∧ (∀ httpGet, fetch_articles_optimized [] httpGet = ⟨none, ""⟩) := by
  constructor
  · simp [searchArticlesHandler, hq]
  · intro httpGet
    simp [fetch_articles_optimized]

theorem C7_witness :
    pyStrip "diabetes" ≠ ""
    ∧ searchArticlesHandler "diabetes" [] (fun _ => "x") (fun _ => [])
      = ⟨.warning "No results found for the query.", false, false⟩ :=
  ⟨by decide,
    (C7_empty_idlist_short_circuits "diabetes" (fun _ => "x") (fun _ => [])
      (by decide)).1⟩

/-- C8: on an identifier list longer than 10, the fetch step issues
exactly one request whose `id` parameter joins only the first 10
identifiers. -/
theorem C8_truncates_to_cap (pmidList : List String)
    (httpGet : FetchRequest → Except String String)
    (h : pmidList.length > 10) :
    (fetch_articles_optimized pmidList httpGet).request
      = some ⟨"pubmed", String.intercalate "," (pmidList.take 10), "xml"⟩
    ∧ (pmidList.take 10).length = 10 := by
  have hne : pmidList ≠ [] := by
    intro he
    simp [he] at h
  constructor
  · unfold fetch_articles_optimized
    rw [if_neg hne]
    cases hg : httpGet ⟨"pubmed", String.intercalate "," (pmidList.take 10), "xml"⟩ <;>
      simp [hg]
  · simp [List.length_take]
    omega

theorem C8_witness :
    (["1", "2", "3", "4", "5", "6", "7", "8", "9", "10", "11"] : List String).length > 10
    ∧ (fetch_articles_optimized
        ["1", "2", "3", "4", "5", "6", "7", "8", "9", "10", "11"]
        (fun _ => .error "down")).request
      = some ⟨"pubmed",
          String.intercalate ","
            ((["1", "2", "3", "4", "5", "6", "7", "8", "9", "10", "11"] :
              List String).take 10),
          "xml"⟩ :=
  ⟨by decide,
    (C8_truncates_to_cap
      ["1", "2", "3", "4", "5", "6", "7", "8", "9", "10", "11"]
      (fun _ => .error "down") (by decide)).1⟩

/-- C9: with "English" selected, `generate_summary` returns the LLM
output with no translation and the translator is never invoked; the
handler stores that output in session state and displays it
unchanged. -/
theorem C9_english_skips_translation (st : SessionState) (txt s : String)
    (translate : String → String → Except String String)
    (includeTranslation : Bool)
    (hx : st.extractedText = some txt) (ht : pyStrip txt ≠ "") :
    generate_summary (.ok s) translate "English" includeTranslation
      = ⟨.ok (s, none), false⟩
    ∧ getReportSummaryHandler st (.ok s) translate "English" includeTranslation
      = ({ st with summary := some s }, .plain s) := by
  have hg : generate_summary (.ok s) translate "English" includeTranslation
      = ⟨.ok (s, none), false⟩ := by
    simp [generate_summary]
  refine ⟨hg, ?_⟩
  simp [getReportSummaryHandler, hx, ht, hg]

theorem C9_witness :
    generate_summary (.ok "Patient shows mild hypertension.")
        (fun _ _ => .error "translator down") "English" true
      = ⟨.ok ("Patient shows mild hypertension.", none), false⟩
    ∧ getReportSummaryHandler ⟨some "Patient has mild hypertension.", none⟩
        (.ok "Patient shows mild hypertension.")
        (fun _ _ => .error "translator down") "English" true
      = (⟨some "Patient has mild hypertension.",
            some "Patient shows mild hypertension."⟩,
          .plain "Patient shows mild hypertension.") :=
  C9_english_skips_translation
    ⟨some "Patient has mild hypertension.", none⟩
    "Patient has mild hypertension." "Patient shows mild hypertension."
    (fun _ _ => .error "translator down") true rfl (by decide)

/-- C10, counterexample: a `PubmedArticle` whose PMID sub-element is
present but empty gets url "#", not the claimed
`https://pubmed.ncbi.nlm.nih.gov/<pmid>/` form (which would be the
prefix followed directly by "/"), because the code tests Python
truthiness of the pmid, not presence. -/
theorem C10_counterexample :
    (parseArticle ⟨some "T", some "A", some ""⟩).url = "#"
    ∧ (parseArticle ⟨some "T", some "A", some ""⟩).pmid = some ""
    ∧ "#" ≠ pubmedUrlPrefix ++ "" ++ "/" := by
  refine ⟨rfl, rfl, ?_⟩
  decide

/-- C10, amended: every parsed article element is included in the
result; when the PMID sub-element is absent the record's pmid is the
absent value and its url is "#"; a present-but-empty PMID also yields
url "#"; and when the PMID text is non-empty the url is exactly
`https://pubmed.ncbi.nlm.nih.gov/<pmid>/`. -/
theorem C10_amended (arts : List PubmedArticleXml) (a : PubmedArticleXml)
    (hmem : a ∈ arts) :
    parseArticle a ∈ parse_articles_optimized (.wellFormed arts)
    ∧ (a.pmid = none →
        (parseArticle a).pmid = none ∧ (parseArticle a).url = "#")
    ∧ (a.pmid = some "" → (parseArticle a).url = "#")
    ∧ (∀ p, a.pmid = some p → p ≠ "" →
        (parseArticle a).url = pubmedUrlPrefix ++ p ++ "/") := by
  refine ⟨?_, ?_, ?_, ?_⟩
  · simp only [parse_articles_optimized]
    exact List.mem_map_of_mem parseArticle hmem
  · intro h
    simp [parseArticle, h]
  · intro h
    simp [parseArticle, h]
  · intro p h hpne
    simp [parseArticle, h, hpne]

theorem C10_amended_witness :
    (⟨none, none, none⟩ : PubmedArticleXml) ∈
      ([⟨none, none, none⟩, ⟨some "T", some "A", some "123"⟩] :
        List PubmedArticleXml)
    ∧ ((⟨none, none, none⟩ : PubmedArticleXml).pmid = none →
        (parseArticle ⟨none, none, none⟩).pmid = none
        ∧ (parseArticle ⟨none, none, none⟩).url = "#") :=
  ⟨by decide,
    (C10_amended [⟨none, none, none⟩, ⟨some "T", some "A", some "123"⟩]
      ⟨none, none, none⟩ (by decide)).2.1⟩

end MediMind
